import Mathlib

/-!
Verification of the geometry/interaction core of the signpdf repository
(signature overlays on PDF pages: coordinate transforms, the drag/resize
controller `DragDropManager`, the overlay store in `PdfEditorState`, the
field-geometry mapper `getFieldBoundsForPage`, and the commit/embed pass
`SignatureManager.embedSignatures`).

JavaScript numbers are modelled by `JsNum`: either an exact rational
(`fin q`, idealizing IEEE doubles to exact arithmetic) or `nonfin`, a
single value standing for every non-finite double (`NaN`, `Infinity`,
`-Infinity`).  The operations the source uses (`+`, `-`, `*`, `/`,
`Math.max`) are total on doubles; dividing a finite number by zero yields
a non-finite result (`±Infinity` or `NaN`), which is what `nonfin`
records.  We do not distinguish `NaN` from the infinities: every value
the source stores in the fields we reason about is either finite or the
direct result of a division by zero, and no claim below depends on which
non-finite value arises.
-/

inductive JsNum where
  | fin (q : ℚ)
  | nonfin
  deriving DecidableEq, Repr

namespace JsNum

/-- Addition of doubles: finite + finite is exact; any non-finite operand
gives a non-finite result (`NaN` propagates; `Inf + fin = Inf`). -/
def add : JsNum → JsNum → JsNum
  | fin a, fin b => fin (a + b)
  | _, _ => nonfin

/-- Subtraction of doubles, same conventions as `add`. -/
def sub : JsNum → JsNum → JsNum
  | fin a, fin b => fin (a - b)
  | _, _ => nonfin

/-- Multiplication of doubles, same conventions as `add`. -/
def mul : JsNum → JsNum → JsNum
  | fin a, fin b => fin (a * b)
  | _, _ => nonfin

/-- Division of doubles.  A finite number divided by zero is `Infinity`,
`-Infinity` or `NaN` in JavaScript — never a finite number — so it is
`nonfin` here. -/
def div : JsNum → JsNum → JsNum
  | fin a, fin b => if b = 0 then nonfin else fin (a / b)
  | _, _ => nonfin

/-- `Math.max` on doubles.  If both arguments are finite the result is the
exact maximum; `Math.max` with a `NaN` argument returns `NaN`, and the
only non-finite values reaching `max` in the source come from divisions
by zero, so the non-finite case is collapsed to `nonfin`. -/
def maxJ : JsNum → JsNum → JsNum
  | fin a, fin b => fin (max a b)
  | _, _ => nonfin

instance : Add JsNum := ⟨add⟩
instance : Sub JsNum := ⟨sub⟩
instance : Mul JsNum := ⟨mul⟩
instance : Div JsNum := ⟨div⟩
instance : Max JsNum := ⟨maxJ⟩
instance (n : ℕ) : OfNat JsNum n := ⟨fin n⟩

/-- JavaScript truthiness test for a number: `0` and `NaN` are falsy.
The fields this is applied to (container dimensions read from
`offsetWidth`/`offsetHeight`) are finite or zero, never `±Infinity`, so
collapsing the non-finite case to "falsy" is faithful there. -/
def falsy : JsNum → Prop
  | fin q => q = 0
  | nonfin => True

instance (n : JsNum) : Decidable n.falsy := by
  unfold falsy; cases n <;> infer_instance

@[simp] theorem fin_add (a b : ℚ) : (fin a) + (fin b) = fin (a + b) := rfl
@[simp] theorem fin_sub (a b : ℚ) : (fin a) - (fin b) = fin (a - b) := rfl
@[simp] theorem fin_mul (a b : ℚ) : (fin a) * (fin b) = fin (a * b) := rfl
@[simp] theorem fin_max (a b : ℚ) : max (fin a) (fin b) = fin (max a b) := rfl

theorem fin_div (a b : ℚ) (hb : b ≠ 0) : (fin a) / (fin b) = fin (a / b) := by
  show div (fin a) (fin b) = fin (a / b)
  simp [div, hb]

theorem fin_div_zero (a : ℚ) : (fin a) / (fin 0) = nonfin := by
  show div (fin a) (fin 0) = nonfin
  simp [div]

/-- Division by the literal `100` used by both coordinate transforms. -/
theorem fin_div_100 (a : ℚ) : fin a / (100 : JsNum) = fin (a / 100) := by
  rw [show (100 : JsNum) = fin (100 : ℚ) from rfl, fin_div a 100 (by norm_num)]

/-- Multiplication by the literal `100` used by `pixelsToPercent`. -/
theorem fin_mul_100 (a : ℚ) : fin a * (100 : JsNum) = fin (a * 100) := rfl

@[simp] theorem ofNat_eq_fin (n : ℕ) : (OfNat.ofNat n : JsNum) = fin (OfNat.ofNat n) := rfl

end JsNum

open JsNum in
/-- Coordinate Transform, from the source (duplicated verbatim in
`drag-drop-manager.ts`, `signature-manager.ts` and `+page.svelte`):
`percentToPixels(percent, dimension) { return (percent / 100) * dimension; }`. -/
def percentToPixels (percent dimension : JsNum) : JsNum :=
  percent / 100 * dimension

open JsNum in
/-- Coordinate Transform, from the source (same three files):
`pixelsToPercent(pixels, dimension) { return (pixels / dimension) * 100; }`.
There is no guard on `dimension`: a zero dimension makes the JavaScript
division produce a non-finite value. -/
def pixelsToPercent (pixels dimension : JsNum) : JsNum :=
  pixels / dimension * 100

/-- A signature overlay, from `signature-manager.ts`:
`interface Signature { image: string; xPercent; yPercent; widthPercent;
heightPercent: number; page: number; }`.  `page` is always assigned from
the non-negative page counter and used as an array index, so it is a
`ℕ` here. -/
structure Signature where
  image : String
  xPercent : JsNum
  yPercent : JsNum
  widthPercent : JsNum
  heightPercent : JsNum
  page : ℕ
  deriving DecidableEq, Repr

/-- A page's physical size, as returned by `page.getSize()` of the output
document collaborator (pdf-lib). -/
structure PageSize where
  width : JsNum
  height : JsNum
  deriving DecidableEq, Repr

/-- `p` is a prefix of `s`, on character lists (structurally recursive so
that it evaluates inside proofs). -/
def charsStarts : List Char → List Char → Bool
  | [], _ => true
  | _ :: _, [] => false
  | p :: ps, c :: cs => if p = c then charsStarts ps cs else false

/-- JavaScript `s.startsWith(p)`: `s` begins with the search string `p`. -/
def strStartsWith (s p : String) : Bool :=
  charsStarts p.data s.data

/-- JavaScript `String.prototype.split(sep)` on character lists for a
one-character separator: the (never empty) list of chunks between
occurrences of `sep`. -/
def splitChars (sep : Char) : List Char → List (List Char)
  | [] => [[]]
  | c :: rest =>
    if c = sep then [] :: splitChars sep rest
    else
      match splitChars sep rest with
      | [] => [[c]]
      | chunk :: more => (c :: chunk) :: more

namespace SignatureManager

open JsNum

/-- `SignatureManager.addSignatureToPage(currentPage)` from
`signature-manager.ts`:
`if (!this.signatureImage || !this.containerWidth || !this.containerHeight)
return null;` then returns a fresh overlay with the fixed default geometry.
`!s` on a string is true for `null` and for the empty string; `!n` on a
number is `JsNum.falsy`.  The relevant instance fields are passed as
arguments. -/
def addSignatureToPage (signatureImage : Option String)
    (containerWidth containerHeight : JsNum) (currentPage : ℕ) : Option Signature :=
  match signatureImage with
  | none => none
  | some img =>
    if img = "" ∨ containerWidth.falsy ∨ containerHeight.falsy then none
    else some { image := img, xPercent := fin 20, yPercent := fin 15,
                widthPercent := fin 10, heightPercent := fin 10, page := currentPage }

/-- One `page.drawImage(image, { x, y, width, height })` request issued by
the embed pass, together with the page it was issued on. -/
structure DrawCall where
  page : ℕ
  image : String
  x : JsNum
  y : JsNum
  width : JsNum
  height : JsNum
  deriving DecidableEq, Repr

/-- The outcome of the embed pass: either the loop ran to completion, or an
exception escaped it.  In both cases `draws` lists, in order, the
`drawImage` calls performed before the end/exception (draws already made
are not rolled back). -/
inductive EmbedResult where
  | ok (draws : List DrawCall)
  | thrown (draws : List DrawCall)
  deriving DecidableEq, Repr

/-- Prepend a draw performed before the rest of the pass ran. -/
def EmbedResult.consDraw (d : DrawCall) : EmbedResult → EmbedResult
  | .ok l => .ok (d :: l)
  | .thrown l => .thrown (d :: l)

/-- `dataURL.split(',')[1]`: the chunk between the first and second comma,
or `none` when the string has no comma (in which case JavaScript passes
`undefined` to `atob`, which throws). -/
def dataURLPayload (s : String) : Option String :=
  ((splitChars ',' s.data)[1]?).map fun cs => ⟨cs⟩

/-- Whether the `atob`/`Uint8Array.from` byte-decoding step of the embed
pass succeeds for an image string.  `atobOk p` is an oracle for "`atob p`
does not throw" (base64 decoding is the browser's, external to this
core); the step throws outright when the data URL has no comma. -/
def decodeOk (atobOk : String → Bool) (image : String) : Bool :=
  match dataURLPayload image with
  | some p => atobOk p
  | none => false

/-- The body of the `for (const sig of signatures)` loop of
`SignatureManager.embedSignatures` (`signature-manager.ts`), applied to
one signature, given the result of processing the remaining signatures:

* `pages[sig.page]` missing → `continue`;
* compute `x = xPercent/100 * pdfWidth`, `y = yPercent/100 * pdfHeight`,
  `sigWidth`, `sigHeight` (note: no flip of `y`);
* image not starting with `data:image/` → `continue`;
* `atob`/byte conversion (outside the `try`) throws → the exception
  escapes the whole loop;
* `embedPng`/`embedJpg` throws (modelled by the oracle `embedOk`) →
  caught, `continue`;
* otherwise `page.drawImage(image, { x, y, width, height })`. -/
def embedStep (pages : List PageSize) (embedOk atobOk : String → Bool)
    (sig : Signature) (rest : EmbedResult) : EmbedResult :=
  match pages[sig.page]? with
  | none => rest
  | some page =>
    let x := sig.xPercent / 100 * page.width
    let y := sig.yPercent / 100 * page.height
    let sigWidth := sig.widthPercent / 100 * page.width
    let sigHeight := sig.heightPercent / 100 * page.height
    if strStartsWith sig.image "data:image/" = false then rest
    else if decodeOk atobOk sig.image then
      if embedOk sig.image then
        EmbedResult.consDraw ⟨sig.page, sig.image, x, y, sigWidth, sigHeight⟩ rest
      else rest
    else EmbedResult.thrown []

/-- `SignatureManager.embedSignatures(pdfDoc, signatures)`: the loop over
the signatures, in order.  `pages` is `pdfDoc.getPages()`; `embedOk` and
`atobOk` are oracles for the external image-embedding and base64-decoding
collaborators. -/
def embedSignatures (pages : List PageSize) (embedOk atobOk : String → Bool) :
    List Signature → EmbedResult
  | [] => .ok []
  | sig :: rest =>
    embedStep pages embedOk atobOk sig (embedSignatures pages embedOk atobOk rest)

end SignatureManager

/-- An `{ x, y, width, height }` record as stored in
`DragState.dragStart` / `DragState.resizeStart` (`drag-drop-manager.ts`). -/
structure XYWH where
  x : JsNum
  y : JsNum
  width : JsNum
  height : JsNum
  deriving DecidableEq, Repr

/-- `DragState` from `drag-drop-manager.ts`:
`{ isDragging, isResizing: boolean; dragIndex: number; dragStart;
resizeStart: {x,y,width,height} }`.  `dragIndex` holds `-1` when idle, so
it is a `ℤ`. -/
structure DragState where
  isDragging : Bool
  isResizing : Bool
  dragIndex : ℤ
  dragStart : XYWH
  resizeStart : XYWH
  deriving DecidableEq, Repr

/-- The initial `dragState` field value of a fresh `DragDropManager`. -/
def initialDragState : DragState :=
  { isDragging := false, isResizing := false, dragIndex := -1,
    dragStart := ⟨0, 0, 0, 0⟩, resizeStart := ⟨0, 0, 0, 0⟩ }

/-- The mutable state of a `DragDropManager` instance:
`pdfPreviewContainer` (kept only as presence, `hasContainer`),
`containerWidth`, `containerHeight` (from `offsetWidth`/`offsetHeight`)
and `dragState`. -/
structure DragDropManager where
  hasContainer : Bool
  containerWidth : JsNum
  containerHeight : JsNum
  dragState : DragState
  deriving DecidableEq, Repr

/-- What the DOM reports during one pointer event: the container's
`getBoundingClientRect()` offsets and the event's `clientX`/`clientY`.
These are always finite doubles, idealized as exact rationals. -/
structure PointerEnv where
  rectLeft : ℚ
  rectTop : ℚ
  clientX : ℚ
  clientY : ℚ
  deriving DecidableEq, Repr

namespace DragDropManager

open JsNum

/-- `DragDropManager.startDrag(e, index)`: guard
`if (!this.pdfPreviewContainer) return;`, then set `isDragging = true`,
`dragIndex = index`, and `dragStart = { x: clientX - rect.left,
y: clientY - rect.top, width: 0, height: 0 }`.  Note that only the
pointer position is recorded — the overlay's current pixel origin is not
subtracted — and that no check of an already-active drag/resize is made. -/
def startDrag (m : DragDropManager) (env : PointerEnv) (index : ℤ) : DragDropManager :=
  if m.hasContainer = false then m
  else
    { m with dragState :=
        { m.dragState with
            isDragging := true,
            dragIndex := index,
            dragStart := ⟨fin (env.clientX - env.rectLeft), fin (env.clientY - env.rectTop), 0, 0⟩ } }

/-- Update `signatures[i]` in place, as the JavaScript assignments
`signatures[i].xPercent = …` do.  When `i` is not a valid index,
`signatures[i]` is `undefined` and the property assignment throws —
modelled as `none`. -/
def updateSig (sigs : List Signature) (i : ℤ) (f : Signature → Signature) :
    Option (List Signature) :=
  if h : 0 ≤ i ∧ i.toNat < sigs.length then
    some (sigs.set i.toNat (f (sigs.get ⟨i.toNat, h.2⟩)))
  else none

/-- `DragDropManager.onDrag(e, signatures)`: guard
`if (!isDragging || dragIndex < 0 || !container) return signatures;`,
then `newPixelX = clientX - rect.left - dragStart.x` (the raw pointer
delta from where the drag started), `newPixelY` likewise, and store
`pixelsToPercent(newPixel, containerDimension)` into the dragged
signature.  `none` models the `TypeError` thrown if `dragIndex` is past
the end of the array. -/
def onDrag (m : DragDropManager) (env : PointerEnv) (sigs : List Signature) :
    Option (List Signature) :=
  if m.dragState.isDragging = false ∨ m.dragState.dragIndex < 0 ∨ m.hasContainer = false then
    some sigs
  else
    let newPixelX := fin (env.clientX - env.rectLeft) - m.dragState.dragStart.x
    let newPixelY := fin (env.clientY - env.rectTop) - m.dragState.dragStart.y
    updateSig sigs m.dragState.dragIndex fun s =>
      { s with xPercent := pixelsToPercent newPixelX m.containerWidth,
               yPercent := pixelsToPercent newPixelY m.containerHeight }

/-- `DragDropManager.startResize(e, index, signatures)`: guard on the
container, then set `isResizing = true`, `dragIndex = index`, record the
pointer position in both `dragStart` and `resizeStart`, and record the
overlay's current pixel size (`percentToPixels` of its stored percent
via the current container dimensions) in `resizeStart.width/height`.
Reading `signatures[index]` throws when the index is invalid (`none`).
No check of an already-active drag/resize is made. -/
def startResize (m : DragDropManager) (env : PointerEnv) (index : ℤ)
    (sigs : List Signature) : Option DragDropManager :=
  if m.hasContainer = false then some m
  else if h : 0 ≤ index ∧ index.toNat < sigs.length then
    let s := sigs.get ⟨index.toNat, h.2⟩
    some { m with dragState :=
            { m.dragState with
                isResizing := true,
                dragIndex := index,
                dragStart := ⟨fin (env.clientX - env.rectLeft), fin (env.clientY - env.rectTop), 0, 0⟩,
                resizeStart := ⟨fin (env.clientX - env.rectLeft), fin (env.clientY - env.rectTop),
                                percentToPixels s.widthPercent m.containerWidth,
                                percentToPixels s.heightPercent m.containerHeight⟩ } }
  else none

/-- `DragDropManager.onResize(e, signatures)`: guard
`if (!isResizing || dragIndex < 0 || !container) return signatures;`,
then `newPixelX/Y` = pointer delta from the resize origin,
`newWidth = Math.max(50, resizeStart.width + newPixelX)`,
`newHeight = Math.max(25, resizeStart.height + newPixelY)`, stored as
percent of the current container dimensions. -/
def onResize (m : DragDropManager) (env : PointerEnv) (sigs : List Signature) :
    Option (List Signature) :=
  if m.dragState.isResizing = false ∨ m.dragState.dragIndex < 0 ∨ m.hasContainer = false then
    some sigs
  else
    let newPixelX := fin (env.clientX - env.rectLeft) - m.dragState.dragStart.x
    let newPixelY := fin (env.clientY - env.rectTop) - m.dragState.dragStart.y
    let newWidth := max 50 (m.dragState.resizeStart.width + newPixelX)
    let newHeight := max 25 (m.dragState.resizeStart.height + newPixelY)
    updateSig sigs m.dragState.dragIndex fun s =>
      { s with widthPercent := pixelsToPercent newWidth m.containerWidth,
               heightPercent := pixelsToPercent newHeight m.containerHeight }

/-- `DragDropManager.stopDrag()`: clear both mode flags and invalidate the
target index. -/
def stopDrag (m : DragDropManager) : DragDropManager :=
  { m with dragState :=
      { m.dragState with isDragging := false, isResizing := false, dragIndex := -1 } }

end DragDropManager

/-- A form field's bounding rectangle as supplied by the form-field
collaborator (`pdf-form-service.ts`: `bounds?: { x; y; width; height }`,
page units, bottom-left origin).  `pageNum` models the optional `page`
property read by `(field.bounds as any).page ?? 0` in `+page.svelte` —
absent on the declared type, hence an `Option` defaulting to `0`. -/
structure FieldBounds where
  x : ℚ
  y : ℚ
  width : ℚ
  height : ℚ
  pageNum : Option ℕ
  deriving DecidableEq, Repr

/-- The part of a `FormField` the geometry core reads: its optional
`bounds` rectangle. -/
structure FormField where
  bounds : Option FieldBounds
  deriving DecidableEq, Repr

/-- The percentage-space projection returned by `getFieldBoundsForPage`. -/
structure FieldProjection where
  xPercent : JsNum
  yPercent : JsNum
  widthPercent : JsNum
  heightPercent : JsNum
  deriving DecidableEq, Repr

/-- `hasFieldOnPage(field, pageNum)` from `+page.svelte`:
`if (!field.bounds) return false; const fieldPage =
(field.bounds as any).page ?? 0; return fieldPage === pageNum;`. -/
def hasFieldOnPage (field : FormField) (pageNum : ℕ) : Bool :=
  match field.bounds with
  | none => false
  | some b => b.pageNum.getD 0 = pageNum

open JsNum in
/-- `getFieldBoundsForPage(field, pageNum)` from `+page.svelte`:
return `null` unless the field has bounds on this page and
`pdfPageDimensions[pageNum]` exists; otherwise flip the origin,
`adjustedY = pageDim.height - y - height`, and return the four
percentages of the page's physical size. -/
def getFieldBoundsForPage (pdfPageDimensions : List PageSize)
    (field : FormField) (pageNum : ℕ) : Option FieldProjection :=
  match field.bounds with
  | none => none
  | some b =>
    if hasFieldOnPage field pageNum = false then none
    else
      match pdfPageDimensions.get? pageNum with
      | none => none
      | some pageDim =>
        let adjustedY := pageDim.height - fin b.y - fin b.height
        some { xPercent := fin b.x / pageDim.width * 100,
               yPercent := adjustedY / pageDim.height * 100,
               widthPercent := fin b.width / pageDim.width * 100,
               heightPercent := fin b.height / pageDim.height * 100 }

/-- The slice of `PdfEditorState` (`pdf-editor.svelte.ts`) the claims are
about, together with the `SignatureManager` fields it owns
(`signatureImage`, and the container dimensions copied into the manager
by `initSignatureManager`/`initPdfContainer`) and its `DragDropManager`.
Form state and the raw pdf-lib document are external collaborators and
are not tracked. -/
structure EditorState where
  libsLoaded : Bool
  hasSigManager : Bool
  pdfFile : Option String
  pdfPages : List String
  currentPage : ℕ
  signatures : List Signature
  signatureImage : Option String
  smWidth : JsNum
  smHeight : JsNum
  dragM : DragDropManager
  deriving DecidableEq, Repr

namespace EditorState

open JsNum

/-- A fresh `PdfEditorState` before the async library load and before any
canvas/container is attached. -/
def initial : EditorState :=
  { libsLoaded := false, hasSigManager := false, pdfFile := none, pdfPages := [],
    currentPage := 0, signatures := [], signatureImage := none,
    smWidth := 0, smHeight := 0,
    dragM := { hasContainer := false, containerWidth := 0, containerHeight := 0,
               dragState := initialDragState } }

/-- `loadLibraries()` succeeded: `pdfLibLoaded`/`pdfjsLibLoaded` are set. -/
def librariesLoaded (st : EditorState) : EditorState :=
  { st with libsLoaded := true }

/-- `initSignatureManager(element)`: a `SignatureManager` now exists; its
container dimensions are copied from the drag-drop manager. -/
def initSigManager (st : EditorState) : EditorState :=
  { st with hasSigManager := true,
            smWidth := st.dragM.containerWidth, smHeight := st.dragM.containerHeight }

/-- `initPdfContainer(element)`: the drag-drop manager gets the container
and measures it (`offsetWidth`/`offsetHeight`, here `w`/`h`); if a
signature manager exists its dimensions are updated too. -/
def initPdfContainer (st : EditorState) (w h : ℚ) : EditorState :=
  let dragM := { st.dragM with
                 hasContainer := true,
                 containerWidth := fin w, containerHeight := fin h }
  if st.hasSigManager then
    { st with dragM := dragM, smWidth := fin w, smHeight := fin h }
  else
    { st with dragM := dragM }

/-- `loadPDF(file)`: guarded on the libraries being loaded; on success the
loader's rendered pages replace `pdfPages`, `currentPage` is reset to 0
and `pdfFile` is set.  The signature list is NOT touched.  (File
validation and the loader itself are external; their successful result is
the `pages` argument.) -/
def loadPDF (st : EditorState) (fileName : String) (pages : List String) : EditorState :=
  if st.libsLoaded = false then st
  else { st with pdfFile := some fileName, pdfPages := pages, currentPage := 0 }

/-- `setSignatureImage` on the owned signature manager (reached from
`handleSignatureUpload`/`addSignatureFromImage`/`saveDrawnSignature`). -/
def setSignatureImage (st : EditorState) (img : String) : EditorState :=
  if st.hasSigManager then { st with signatureImage := some img } else st

/-- `PdfEditorState.addSignatureToPage()`: guard on the signature manager,
ask it for a fresh overlay on the current page, and append it if non-null
(`this.signatures = [...this.signatures, newSignature]`). -/
def addSignatureToPage (st : EditorState) : EditorState :=
  if st.hasSigManager = false then st
  else
    match SignatureManager.addSignatureToPage st.signatureImage st.smWidth st.smHeight st.currentPage with
    | none => st
    | some sig => { st with signatures := st.signatures ++ [sig] }

/-- `PdfEditorState.removeSignature(index)`:
`this.signatures = this.signatures.filter((_, i) => i !== index);` —
removes exactly the element at position `index` (no-op when out of
range).  Nothing else, in particular not the drag state, is touched. -/
def removeSignature (st : EditorState) (index : ℕ) : EditorState :=
  { st with signatures := st.signatures.eraseIdx index }

/-- `PdfEditorState.startDrag` delegates to the drag-drop manager. -/
def startDrag (st : EditorState) (env : PointerEnv) (index : ℤ) : EditorState :=
  { st with dragM := st.dragM.startDrag env index }

/-- `PdfEditorState.stopDrag` delegates to the drag-drop manager. -/
def stopDrag (st : EditorState) : EditorState :=
  { st with dragM := st.dragM.stopDrag }

/-- The "Next" page button (`PdfWorkspace`): `disabled` at the last page,
`onclick={() => currentPage++}`; only rendered when there is more than
one page. -/
def nextPage (st : EditorState) : EditorState :=
  if 1 < st.pdfPages.length ∧ st.currentPage ≠ st.pdfPages.length - 1 then
    { st with currentPage := st.currentPage + 1 }
  else st

/-- The "Previous" page button: `disabled` at page 0. -/
def prevPage (st : EditorState) : EditorState :=
  if 1 < st.pdfPages.length ∧ st.currentPage ≠ 0 then
    { st with currentPage := st.currentPage - 1 }
  else st

/-- `PdfEditorState.reset()`: clear the file, pages, signatures and page
counter, and `clearSignature()` on the signature manager when present
(which nulls the saved image). -/
def reset (st : EditorState) : EditorState :=
  { st with pdfFile := none, pdfPages := [], signatures := [], currentPage := 0,
            signatureImage := if st.hasSigManager then none else st.signatureImage }

/-- The stored-overlay page invariant the spec asserts:
every overlay's `pageIndex` lies in `[0, pageCount)` (the lower bound is
structural here since `page : ℕ`). -/
def sigPagesValid (st : EditorState) : Prop :=
  ∀ sig ∈ st.signatures, sig.page < st.pdfPages.length

instance (st : EditorState) : Decidable st.sigPagesValid := by
  unfold sigPagesValid; infer_instance

end EditorState

section Claims

open JsNum

/-- Claim C2 (counterexample): the claim says `pixelsToPercent(p, 0) = 0`;
in fact the unguarded JavaScript division by a zero dimension yields a
non-finite value, never `0`: at `p = 37` the result is `nonfin`. -/
theorem pixelsToPercent_zero_not_zero :
    pixelsToPercent (fin 37) (fin 0) = nonfin ∧ nonfin ≠ (fin 0 : JsNum) := by
  decide

/-- Claim C2 (amended): `pixelsToPercent` has no division-by-zero guard:
for a zero dimension it returns a non-finite value (`Infinity`/`NaN`),
not the neutral value `0`; for every nonzero dimension `d` it returns
`p/d * 100`. -/
theorem pixelsToPercent_spec (p d : ℚ) :
    pixelsToPercent (fin p) (fin 0) = nonfin ∧
    (d ≠ 0 → pixelsToPercent (fin p) (fin d) = fin (p / d * 100)) := by
  constructor
  · show (fin p) / (fin 0) * 100 = nonfin
    rw [fin_div_zero]
    rfl
  · intro hd
    show (fin p) / (fin d) * 100 = fin (p / d * 100)
    rw [fin_div p d hd]
    rfl

/-- Witness for `pixelsToPercent_spec` at `p = 30`, `d = 200`. -/
theorem pixelsToPercent_spec_witness :
    pixelsToPercent (fin 30) (fin 0) = nonfin ∧
    pixelsToPercent (fin 30) (fin 200) = fin 15 := by
  refine ⟨(pixelsToPercent_spec 30 200).1, ?_⟩
  rw [(pixelsToPercent_spec 30 200).2 (by norm_num)]
  norm_num

/-- Claim C7: `getFieldBoundsForPage` maps an externally supplied field
rectangle `(x, y, w, h)` on a page of physical size `(pageW, pageH)` to
`xPercent = x/pageW*100`, `yPercent = (pageH - y - h)/pageH*100`,
`widthPercent = w/pageW*100`, `heightPercent = h/pageH*100` (origin
flipped from bottom-left page space to top-left percentage space). -/
theorem getFieldBoundsForPage_formula
    (dims : List PageSize) (b : FieldBounds) (pageNum : ℕ) (pageW pageH : ℚ)
    (hpage : b.pageNum.getD 0 = pageNum)
    (hdim : dims.get? pageNum = some ⟨fin pageW, fin pageH⟩)
    (hW : pageW ≠ 0) (hH : pageH ≠ 0) :
    getFieldBoundsForPage dims ⟨some b⟩ pageNum =
      some { xPercent := fin (b.x / pageW * 100),
             yPercent := fin ((pageH - b.y - b.height) / pageH * 100),
             widthPercent := fin (b.width / pageW * 100),
             heightPercent := fin (b.height / pageH * 100) } := by
  unfold getFieldBoundsForPage hasFieldOnPage
  simp only [hpage, decide_True, Bool.true_eq_false, if_false, hdim]
  simp only [ofNat_eq_fin, fin_sub, fin_div _ _ hW, fin_div _ _ hH, fin_mul]

/-- Witness for `getFieldBoundsForPage_formula`: the spec's concrete
instance `pageW=600, pageH=800`, rect `(60, 700, 120, 40)` gives
`(10, 7.5, 20, 5)`. -/
theorem getFieldBoundsForPage_witness :
    getFieldBoundsForPage [⟨fin 600, fin 800⟩] ⟨some ⟨60, 700, 120, 40, none⟩⟩ 0 =
      some ⟨fin 10, fin (15/2), fin 20, fin 5⟩ := by
  rw [getFieldBoundsForPage_formula [⟨fin 600, fin 800⟩] ⟨60, 700, 120, 40, none⟩ 0 600 800
        rfl rfl (by norm_num) (by norm_num)]
  norm_num

/-- Claim C10: `addSignatureToPage` returns `null` when no signature image
is saved or either container dimension is `0`; otherwise it returns a
fresh overlay with the fixed default geometry `xPercent = 20`,
`yPercent = 15`, `widthPercent = 10`, `heightPercent = 10` on the current
page, and the editor appends it, leaving every previously added overlay
unchanged. -/
theorem addSignatureToPage_default
    (img : Option String) (W H : JsNum) (page : ℕ) (st : EditorState) :
    ((img = none ∨ W = fin 0 ∨ H = fin 0) →
       SignatureManager.addSignatureToPage img W H page = none) ∧
    (∀ s w h, img = some s → s ≠ "" → W = fin w → w ≠ 0 → H = fin h → h ≠ 0 →
       SignatureManager.addSignatureToPage img W H page =
         some ⟨s, fin 20, fin 15, fin 10, fin 10, page⟩) ∧
    (∀ sig, st.hasSigManager = true →
       SignatureManager.addSignatureToPage st.signatureImage st.smWidth st.smHeight st.currentPage
         = some sig →
       st.addSignatureToPage.signatures = st.signatures ++ [sig]) ∧
    (SignatureManager.addSignatureToPage st.signatureImage st.smWidth st.smHeight st.currentPage
         = none →
       st.addSignatureToPage.signatures = st.signatures) := by
  refine ⟨?_, ?_, ?_, ?_⟩
  · rintro (rfl | rfl | rfl)
    · rfl
    · unfold SignatureManager.addSignatureToPage
      cases img with
      | none => rfl
      | some s => simp [falsy]
    · unfold SignatureManager.addSignatureToPage
      cases img with
      | none => rfl
      | some s => simp [falsy]
  · rintro s w h rfl hs rfl hw rfl hh
    unfold SignatureManager.addSignatureToPage
    simp [falsy, hs, hw, hh]
  · intro sig hmgr hsig
    unfold EditorState.addSignatureToPage
    simp [hmgr, hsig]
  · intro hsig
    unfold EditorState.addSignatureToPage
    cases hm : st.hasSigManager <;> simp [hsig]

/-- Witness for `addSignatureToPage_default`: a saved image and a 300×200
container yield the default overlay on page 2; with no saved image the
result is `null`. -/
theorem addSignatureToPage_default_witness :
    SignatureManager.addSignatureToPage (some "data:image/png;base64,AA") (fin 300) (fin 200) 2 =
      some ⟨"data:image/png;base64,AA", fin 20, fin 15, fin 10, fin 10, 2⟩ ∧
    SignatureManager.addSignatureToPage none (fin 300) (fin 200) 2 = none := by
  constructor
  · exact (addSignatureToPage_default (some "data:image/png;base64,AA") (fin 300) (fin 200) 2
      EditorState.initial).2.1 "data:image/png;base64,AA" 300 200 rfl (by decide) rfl
      (by norm_num) rfl (by norm_num)
  · exact (addSignatureToPage_default none (fin 300) (fin 200) 2
      EditorState.initial).1 (Or.inl rfl)

end Claims

section EmbedClaims

open JsNum SignatureManager

/-- Claim C1 (code bug evidence): for the overlay
`(xPercent=20, yPercent=15, widthPercent=10, heightPercent=10)` on a
600×800 page, `SignatureManager.embedSignatures` hands `drawImage` the
rectangle with `y = yPercent/100 * pageH = 120` — the top-left-origin
value used directly — instead of the flipped
`pageH - (yPercent/100 * pageH) - (heightPercent/100 * pageH) = 600`
that the claim (and the `downloadSignedPDF` embed loop in
`+page.svelte`) prescribes. -/
theorem embedSignatures_unflipped_y :
    embedSignatures [⟨fin 600, fin 800⟩] (fun _ => true) (fun _ => true)
        [⟨"data:image/png;base64,AAAA", fin 20, fin 15, fin 10, fin 10, 0⟩] =
      .ok [⟨0, "data:image/png;base64,AAAA", fin 120, fin 120, fin 60, fin 80⟩] ∧
    fin 120 ≠ fin (800 - 15 / 100 * 800 - 10 / 100 * 800) := by
  constructor
  · have h1 : strStartsWith "data:image/png;base64,AAAA" "data:image/" = true := by decide
    have h2 : decodeOk (fun _ => true) "data:image/png;base64,AAAA" = true := by decide
    simp only [embedSignatures, embedStep, List.getElem?_cons_zero, h1, h2,
      Bool.true_eq_false, if_false, if_true, EmbedResult.consDraw]
    norm_num [JsNum.fin_div_100, JsNum.fin.injEq]
  · simp only [ne_eq, JsNum.fin.injEq]
    norm_num

/-- Claim C9: a single failing overlay — its `pageIndex` resolving to no
page, its image not a `data:image/` URL, or the (successfully decoded)
image bytes failing to embed — is skipped, and the pass over the
remaining overlays is exactly the pass without it: no abort, no rollback,
order preserved. -/
theorem embedSignatures_skip (pages : List PageSize) (embedOk atobOk : String → Bool)
    (pre post : List Signature) (bad : Signature)
    (hbad : pages[bad.page]? = none ∨
            strStartsWith bad.image "data:image/" = false ∨
            (decodeOk atobOk bad.image = true ∧ embedOk bad.image = false)) :
    embedSignatures pages embedOk atobOk (pre ++ bad :: post) =
      embedSignatures pages embedOk atobOk (pre ++ post) := by
  induction pre with
  | nil =>
    show embedStep pages embedOk atobOk bad (embedSignatures pages embedOk atobOk post) =
      embedSignatures pages embedOk atobOk post
    unfold embedStep
    rcases hbad with h | h | ⟨h1, h2⟩
    · rw [h]
    · rcases hp : pages[bad.page]? with _ | pg
      · rfl
      · simp [h]
    · rcases hp : pages[bad.page]? with _ | pg
      · rfl
      · rcases hs : strStartsWith bad.image "data:image/" with _ | _
        · simp [hs]
        · simp [hs, h1, h2]
  | cons p pre ih =>
    show embedStep pages embedOk atobOk p (embedSignatures pages embedOk atobOk (pre ++ bad :: post)) =
      embedStep pages embedOk atobOk p (embedSignatures pages embedOk atobOk (pre ++ post))
    exact congrArg _ ih

/-- Witness for `embedSignatures_skip`: the spec's three-overlay scenario.
The second overlay's image bytes fail to embed (the embed oracle rejects
exactly that image), and overlays 1 and 3 are still drawn, in order, on
the 800×1000 page. -/
theorem embedSignatures_skip_witness :
    embedSignatures [⟨fin 800, fin 1000⟩]
        (fun s => s != "data:image/png;base64,XX") (fun _ => true)
        ([⟨"data:image/png;base64,AA", fin 20, fin 15, fin 10, fin 10, 0⟩] ++
          ⟨"data:image/png;base64,XX", fin 1, fin 2, fin 3, fin 4, 0⟩ ::
          [⟨"data:image/png;base64,CC", fin 50, fin 40, fin 30, fin 20, 0⟩]) =
      .ok [⟨0, "data:image/png;base64,AA", fin 160, fin 150, fin 80, fin 100⟩,
           ⟨0, "data:image/png;base64,CC", fin 400, fin 400, fin 240, fin 200⟩] := by
  rw [embedSignatures_skip [⟨fin 800, fin 1000⟩]
        (fun s => s != "data:image/png;base64,XX") (fun _ => true)
        [⟨"data:image/png;base64,AA", fin 20, fin 15, fin 10, fin 10, 0⟩]
        [⟨"data:image/png;base64,CC", fin 50, fin 40, fin 30, fin 20, 0⟩]
        ⟨"data:image/png;base64,XX", fin 1, fin 2, fin 3, fin 4, 0⟩
        (Or.inr (Or.inr ⟨by decide, by decide⟩))]
  have h1 : strStartsWith "data:image/png;base64,AA" "data:image/" = true := by decide
  have h3 : strStartsWith "data:image/png;base64,CC" "data:image/" = true := by decide
  have d1 : decodeOk (fun _ => true) "data:image/png;base64,AA" = true := by decide
  have d3 : decodeOk (fun _ => true) "data:image/png;base64,CC" = true := by decide
  have e1 : ((fun s => s != "data:image/png;base64,XX") "data:image/png;base64,AA") = true := by
    decide
  have e3 : ((fun s => s != "data:image/png;base64,XX") "data:image/png;base64,CC") = true := by
    decide
  simp only [List.cons_append, List.nil_append, embedSignatures, embedStep,
    List.getElem?_cons_zero, h1, h3, d1, d3, e1, e3,
    Bool.true_eq_false, if_false, if_true, EmbedResult.consDraw]
  norm_num [JsNum.fin_div_100, JsNum.fin.injEq]

end EmbedClaims

section DragClaims

open JsNum

/-- The overlay used for the drag-delta check: stored percent `(10, 40)`,
i.e. pixel origin `(100, 200)` in a 1000×500 container. -/
def c3sig : Signature :=
  ⟨"data:image/png;base64,AA", fin 10, fin 40, fin 10, fin 10, 0⟩

/-- A `DragDropManager` with a measured 1000×500 container, idle. -/
def c3manager : DragDropManager :=
  ⟨true, fin 1000, fin 500, initialDragState⟩

/-- Claim C3 (code bug evidence): the overlay has pixel origin
`(100, 200)`; the drag is grabbed at pointer `(150, 220)` and moved to
`(160, 225)` — a `(+10, +5)` delta.  `DragDropManager.startDrag` records
only the pointer position, never the overlay's pixel origin, so `onDrag`
stores the bare pointer delta: the overlay ends at pixel origin
`(10, 5)` (percent `(1, 1)`), not at `(110, 205)` as the claim — and the
`startDrag` in `+page.svelte`, which subtracts the overlay's current
pixel position — prescribe. -/
theorem dragDelta_code_eval :
    DragDropManager.onDrag (DragDropManager.startDrag c3manager ⟨0, 0, 150, 220⟩ 0)
        ⟨0, 0, 160, 225⟩ [c3sig] =
      some [{ c3sig with xPercent := fin 1, yPercent := fin 1 }] ∧
    percentToPixels (fin 1) (fin 1000) = fin 10 ∧ fin 10 ≠ fin (100 + 10) ∧
    percentToPixels (fin 1) (fin 500) = fin 5 ∧ fin 5 ≠ fin (200 + 5) := by
  refine ⟨?_, ?_, ?_, ?_, ?_⟩
  · simp only [c3manager, c3sig, DragDropManager.startDrag, DragDropManager.onDrag,
      DragDropManager.updateSig, initialDragState, pixelsToPercent]
    norm_num [JsNum.fin_div, JsNum.fin_mul_100, JsNum.fin.injEq, Signature.mk.injEq]
  · simp only [percentToPixels]
    norm_num [JsNum.fin_div_100, JsNum.fin.injEq]
  · simp only [ne_eq, JsNum.fin.injEq]
    norm_num
  · simp only [percentToPixels]
    norm_num [JsNum.fin_div_100, JsNum.fin.injEq]
  · simp only [ne_eq, JsNum.fin.injEq]
    norm_num

/-- A reachable `Dragging(0)` state: `startDrag` on index 0 from idle. -/
def c4m1 : DragDropManager :=
  DragDropManager.startDrag ⟨true, fin 800, fin 600, initialDragState⟩ ⟨0, 0, 10, 20⟩ 0

/-- Claim C4 (counterexample): from the reachable state `Dragging(0)`,
`startDrag` for the different index `1` is not ignored: the target index
changes to `1`.  (The source has no guard at all on an already-active
drag/resize.) -/
theorem startDrag_second_start_overwrites :
    c4m1.dragState.isDragging = true ∧ c4m1.dragState.dragIndex = 0 ∧
    (DragDropManager.startDrag c4m1 ⟨0, 0, 30, 40⟩ 1).dragState.dragIndex = 1 ∧
    (1 : ℤ) ≠ 0 := by
  refine ⟨rfl, rfl, rfl, by decide⟩

/-- Claim C4 (amended): while a drag or resize is active, a new
`startDrag`/`startResize` (any index) is NOT rejected: it overwrites the
mode flag and the target index — the last operation wins, with no guard
on the previous state. -/
theorem startDrag_last_wins (m : DragDropManager) (env : PointerEnv) (j : ℤ)
    (sigs : List Signature) (hc : m.hasContainer = true) :
    ((m.startDrag env j).dragState.isDragging = true ∧
     (m.startDrag env j).dragState.dragIndex = j ∧
     (m.startDrag env j).dragState.isResizing = m.dragState.isResizing) ∧
    (j.toNat < sigs.length → 0 ≤ j →
      ∃ m', m.startResize env j sigs = some m' ∧
        m'.dragState.isResizing = true ∧ m'.dragState.dragIndex = j ∧
        m'.dragState.isDragging = m.dragState.isDragging) := by
  constructor
  · unfold DragDropManager.startDrag
    rw [if_neg (by simp [hc])]
    exact ⟨rfl, rfl, rfl⟩
  · intro h hj
    unfold DragDropManager.startResize
    rw [if_neg (by simp [hc]), dif_pos ⟨hj, h⟩]
    exact ⟨_, rfl, rfl, rfl, rfl⟩

/-- Witness for `startDrag_last_wins`: over the already-`Dragging(0)`
manager `c4m1`, a new `startDrag` for index 5 retargets to 5. -/
theorem startDrag_last_wins_witness :
    (DragDropManager.startDrag c4m1 ⟨0, 0, 30, 40⟩ 5).dragState.dragIndex = 5 :=
  ((startDrag_last_wins c4m1 ⟨0, 0, 30, 40⟩ 5 [] rfl).1).2.1

/-- A reachable editor state: libraries loaded, a one-page document, a
saved signature image, one overlay added, a drag of it active (index 0),
and then `removeSignature(0)` called mid-drag. -/
def c5state : EditorState :=
  ((((((EditorState.initial.librariesLoaded.loadPDF "doc.pdf" ["page0"]).initSigManager).initPdfContainer
      600 800).setSignatureImage "data:image/png;base64,AA").addSignatureToPage).startDrag
      ⟨0, 0, 150, 130⟩ 0).removeSignature 0

/-- Claim C5 (counterexample): removing the overlay that is the target of
the active drag does NOT reset the drag state: after `removeSignature(0)`
the manager still reports `isDragging = true` with target index `0`,
while the overlay list is already empty. -/
theorem removeSignature_keeps_drag_cex :
    c5state.dragM.dragState.isDragging = true ∧
    c5state.dragM.dragState.dragIndex = 0 ∧
    c5state.signatures = [] := by
  refine ⟨rfl, rfl, rfl⟩

/-- Claim C5 (amended): `removeSignature` only filters the overlay list —
the drag state is never touched by removal and keeps its mode and target
index; the machine returns to Idle only through `stopDrag` (the release
handler), which clears both flags and sets the index to `-1`. -/
theorem removeSignature_preserves_dragState (st : EditorState) (i : ℕ) :
    (st.removeSignature i).dragM = st.dragM ∧
    (st.removeSignature i).signatures = st.signatures.eraseIdx i ∧
    st.stopDrag.dragM.dragState.isDragging = false ∧
    st.stopDrag.dragM.dragState.isResizing = false ∧
    st.stopDrag.dragM.dragState.dragIndex = -1 :=
  ⟨rfl, rfl, rfl, rfl, rfl⟩

end DragClaims

section StoreClaims

open JsNum

/-- A reachable editor state: a two-page document is loaded, the user
moves to page 1 and adds an overlay there (`pageIndex = 1`).  The page
invariant holds here. -/
def c6mid : EditorState :=
  ((((EditorState.initial.librariesLoaded.loadPDF "two.pdf" ["p0", "p1"]).initSigManager).initPdfContainer
      600 800).setSignatureImage "data:image/png;base64,AA").nextPage.addSignatureToPage

/-- A reachable editor state violating the page invariant: from `c6mid`,
loading a one-page document — `loadPDF` does not clear the overlay list,
leaving an overlay with `pageIndex = 1` while `pageCount = 1`. -/
def c6state : EditorState :=
  c6mid.loadPDF "one.pdf" ["q0"]

/-- Claim C6 (counterexample): in the reachable state `c6state` the stored
overlay has `pageIndex = 1` but the loaded document has only 1 page:
loading a new document does not preserve the invariant. -/
theorem pageIndex_invariant_load_cex :
    c6state.signatures = [⟨"data:image/png;base64,AA", fin 20, fin 15, fin 10, fin 10, 1⟩] ∧
    c6state.pdfPages.length = 1 ∧
    ¬ c6state.sigPagesValid := by
  refine ⟨rfl, rfl, by decide⟩

/-- Helper: an overlay produced by `SignatureManager.addSignatureToPage`
carries the page it was asked for. -/
theorem addSignature_page_eq (img : Option String) (W H : JsNum) (p : ℕ) (sig : Signature)
    (h : SignatureManager.addSignatureToPage img W H p = some sig) : sig.page = p := by
  rcases img with _ | s
  · simp [SignatureManager.addSignatureToPage] at h
  · simp only [SignatureManager.addSignatureToPage] at h
    by_cases hg : s = "" ∨ W.falsy ∨ H.falsy
    · rw [if_pos hg] at h
      exact absurd h (by simp)
    · rw [if_neg hg] at h
      cases h
      rfl

/-- Claim C6 (amended): adding a signature (when the current page is in
range), removing a signature, and a full reset all preserve
`0 ≤ pageIndex < pageCount` for every stored overlay; loading a new
document does not (it leaves the overlay list untouched, see the
counterexample). -/
theorem pageIndex_invariant_ops (st : EditorState) (hinv : st.sigPagesValid) :
    (st.currentPage < st.pdfPages.length → st.addSignatureToPage.sigPagesValid) ∧
    (∀ i, (st.removeSignature i).sigPagesValid) ∧
    st.reset.sigPagesValid := by
  refine ⟨?_, ?_, ?_⟩
  · intro hcur
    unfold EditorState.addSignatureToPage
    rcases hm : st.hasSigManager with _ | _
    · rw [if_pos rfl]
      exact hinv
    · rw [if_neg (by simp)]
      rcases hadd : SignatureManager.addSignatureToPage st.signatureImage st.smWidth st.smHeight
          st.currentPage with _ | sig
      · exact hinv
      · intro s hs
        rcases List.mem_append.mp hs with h | h
        · exact hinv s h
        · rcases List.mem_singleton.mp h with rfl
          have hpage := addSignature_page_eq st.signatureImage st.smWidth st.smHeight
            st.currentPage s hadd
          simpa [hpage] using hcur
  · intro i s hs
    exact hinv s ((List.eraseIdx_sublist st.signatures i).subset hs)
  · intro s hs
    simp [EditorState.reset] at hs

/-- Witness for `pageIndex_invariant_ops` at the reachable state `c6mid`
(one overlay on page 1 of a two-page document). -/
theorem pageIndex_invariant_ops_witness :
    (EditorState.removeSignature c6mid 0).sigPagesValid ∧
    c6mid.reset.sigPagesValid ∧
    c6mid.addSignatureToPage.sigPagesValid := by
  have h := pageIndex_invariant_ops c6mid (by decide)
  exact ⟨h.2.1 0, h.2.2, h.1 (by decide)⟩

end StoreClaims

section ResizeClaims

open JsNum

/-- Claim C8: during an active resize started by `startResize` (which
records the overlay's current pixel size from its stored percent), a
move event writes back `max(50, originWidth + dx)` ×
`max(25, originHeight + dy)` pixels, converted to percent of the current
container dimensions — and those stored percents convert back (via the
same dimensions) to the clamped pixel sizes, hence never below 50×25. -/
theorem onResize_floor
    (W H : ℚ) (hW : 0 < W) (hH : 0 < H) (ds : DragState)
    (env1 env2 : PointerEnv) (sigs : List Signature) (i : ℕ) (hlen : i < sigs.length)
    (wp hp : ℚ)
    (hwp : (sigs.get ⟨i, hlen⟩).widthPercent = fin wp)
    (hhp : (sigs.get ⟨i, hlen⟩).heightPercent = fin hp) :
    ∃ m1,
      DragDropManager.startResize ⟨true, fin W, fin H, ds⟩ env1 (i : ℤ) sigs = some m1 ∧
      DragDropManager.onResize m1 env2 sigs =
        some (sigs.set i
          { sigs.get ⟨i, hlen⟩ with
              widthPercent := fin (max 50 (wp / 100 * W +
                ((env2.clientX - env2.rectLeft) - (env1.clientX - env1.rectLeft))) / W * 100),
              heightPercent := fin (max 25 (hp / 100 * H +
                ((env2.clientY - env2.rectTop) - (env1.clientY - env1.rectTop))) / H * 100) }) ∧
      percentToPixels (fin (max 50 (wp / 100 * W +
          ((env2.clientX - env2.rectLeft) - (env1.clientX - env1.rectLeft))) / W * 100)) (fin W) =
        fin (max 50 (wp / 100 * W + ((env2.clientX - env2.rectLeft) - (env1.clientX - env1.rectLeft)))) ∧
      percentToPixels (fin (max 25 (hp / 100 * H +
          ((env2.clientY - env2.rectTop) - (env1.clientY - env1.rectTop))) / H * 100)) (fin H) =
        fin (max 25 (hp / 100 * H + ((env2.clientY - env2.rectTop) - (env1.clientY - env1.rectTop)))) ∧
      (50 : ℚ) ≤ max 50 (wp / 100 * W + ((env2.clientX - env2.rectLeft) - (env1.clientX - env1.rectLeft))) ∧
      (25 : ℚ) ≤ max 25 (hp / 100 * H + ((env2.clientY - env2.rectTop) - (env1.clientY - env1.rectTop))) := by
  have hW' : W ≠ 0 := ne_of_gt hW
  have hH' : H ≠ 0 := ne_of_gt hH
  have h0 : (0 : ℤ) ≤ (i : ℤ) := Int.natCast_nonneg i
  have hnl : ¬ ((i : ℤ) < 0) := Int.not_lt.mpr h0
  have hcond : (0 : ℤ) ≤ (i : ℤ) ∧ (i : ℤ).toNat < sigs.length := ⟨h0, by simpa using hlen⟩
  refine ⟨⟨true, fin W, fin H,
    { ds with
      isResizing := true,
      dragIndex := (i : ℤ),
      dragStart := ⟨fin (env1.clientX - env1.rectLeft), fin (env1.clientY - env1.rectTop), 0, 0⟩,
      resizeStart := ⟨fin (env1.clientX - env1.rectLeft), fin (env1.clientY - env1.rectTop),
        fin (wp / 100 * W), fin (hp / 100 * H)⟩ }⟩,
    ?_, ?_, ?_, ?_, le_max_left _ _, le_max_left _ _⟩
  · unfold DragDropManager.startResize
    rw [if_neg (by simp), dif_pos hcond]
    simp only [Int.toNat_natCast, hwp, hhp, percentToPixels, JsNum.fin_div_100, JsNum.fin_mul]
  · have hdW : ∀ a : ℚ, fin a / fin W = fin (a / W) := fun a => JsNum.fin_div a W hW'
    have hdH : ∀ a : ℚ, fin a / fin H = fin (a / H) := fun a => JsNum.fin_div a H hH'
    unfold DragDropManager.onResize
    rw [if_neg (by simp [hnl])]
    unfold DragDropManager.updateSig
    rw [dif_pos hcond]
    simp only [Int.toNat_natCast, JsNum.ofNat_eq_fin, JsNum.fin_sub, JsNum.fin_add, JsNum.fin_max,
      pixelsToPercent, hdW, hdH, JsNum.fin_mul]
  · simp only [percentToPixels, JsNum.fin_div_100, JsNum.fin_mul, JsNum.fin.injEq]
    field_simp
    ring
  · simp only [percentToPixels, JsNum.fin_div_100, JsNum.fin_mul, JsNum.fin.injEq]
    field_simp
    ring

/-- The overlay used for the resize witness: percent size `(10, 20)`,
i.e. pixel size `(100, 100)` in a 1000×500 container. -/
def c8sig : Signature :=
  ⟨"data:image/png;base64,AA", fin 30, fin 40, fin 10, fin 20, 0⟩

/-- Witness for `onResize_floor`: grabbing the resize handle at
`(300, 260)` and moving to `(310, 250)` (`dx = 10`, `dy = -10`) turns the
100×100-pixel overlay into `max(50, 110) × max(25, 90) = 110×90` pixels,
stored as percent `(11, 18)` of the 1000×500 container. -/
theorem onResize_floor_witness :
    ∃ m1,
      DragDropManager.startResize ⟨true, fin 1000, fin 500, initialDragState⟩
          ⟨0, 0, 300, 260⟩ 0 [c8sig] = some m1 ∧
      DragDropManager.onResize m1 ⟨0, 0, 310, 250⟩ [c8sig] =
        some [{ c8sig with widthPercent := fin 11, heightPercent := fin 18 }] := by
  obtain ⟨m1, h1, h2, -, -, -, -⟩ :=
    onResize_floor 1000 500 (by norm_num) (by norm_num) initialDragState
      ⟨0, 0, 300, 260⟩ ⟨0, 0, 310, 250⟩ [c8sig] 0 (by decide) 10 20 rfl rfl
  exact ⟨m1, h1, h2.trans (by norm_num [max_def, c8sig, JsNum.fin.injEq, Signature.mk.injEq])⟩

end ResizeClaims
